import Mathlib

/-!
Verification of the lifecycle state machines of the "Youth Environmental
Scholars" platform: status transitions of applications, matches, sessions,
assignments, goals and time logs across the mentorship, volunteer and
programs modules, as implemented in `src/mentorship/views.py`,
`src/volunteer/views.py`, `src/programs/views.py` and the corresponding
`models.py` / `admin.py` files.

Users are identified by natural numbers.  Timestamps and dates are modelled
as integers (unit: hours for datetimes, so `timedelta(hours=1)` is `1`).
Fractional quantities (goal progress, logged hours) are rationals.
Each HTTP action is embedded as a pure function returning the produced HTTP
response together with the (possibly updated) persisted entities; on an
error response the entities are returned unchanged, matching the source,
which only mutates and saves on the success path.
-/

namespace YES

/-- The HTTP responses the embedded actions can produce.
`ok msg` is a 200 with `{'status': msg}`, `okData` a 200 whose body is
serializer data, `created` a 201, `badRequest msg` a 400 with
`{'error': msg}`, `serializerErrors` a 400 whose body is `serializer.errors`,
`forbidden msg` a 403 and `unauthorized msg` a 401. -/
inductive Resp where
  | ok (msg : String)
  | okData
  | created
  | badRequest (msg : String)
  | serializerErrors
  | forbidden (msg : String)
  | unauthorized (msg : String)
deriving DecidableEq, Repr

namespace Mentorship

/-- `MentorshipMatch.MatchStatus` (src/mentorship/models.py:188-195). -/
inductive MatchStatus where
  | pending | proposed | accepted | rejected | active | completed | terminated
deriving DecidableEq, Repr

/-- Display labels of `MatchStatus` (`get_status_display`). -/
def MatchStatus.display : MatchStatus → String
  | .pending => "Pending"
  | .proposed => "Proposed"
  | .accepted => "Accepted"
  | .rejected => "Rejected"
  | .active => "Active"
  | .completed => "Completed"
  | .terminated => "Terminated"

/-- `MentorshipSession.SessionStatus` (src/mentorship/models.py:245-251). -/
inductive SessionStatus where
  | scheduled | confirmed | in_progress | completed | cancelled | rescheduled
deriving DecidableEq, Repr

/-- Display labels of `SessionStatus` (`get_status_display`). -/
def SessionStatus.display : SessionStatus → String
  | .scheduled => "Scheduled"
  | .confirmed => "Confirmed"
  | .in_progress => "In Progress"
  | .completed => "Completed"
  | .cancelled => "Cancelled"
  | .rescheduled => "Rescheduled"

/-- `MentorshipGoal.GoalStatus` (src/mentorship/models.py:402-406). -/
inductive GoalStatus where
  | not_started | in_progress | completed | on_hold | abandoned
deriving DecidableEq, Repr

/-- The fields of `MentorshipMatch` (src/mentorship/models.py:187-235) that
the lifecycle actions read or write. -/
structure MMatch where
  mentor : Nat
  mentee : Nat
  status : MatchStatus
  proposed_at : Option Int
  accepted_at : Option Int
  started_at : Option Int
  completed_at : Option Int
  meetings_held : Nat
  milestones_completed : Nat
deriving DecidableEq, Repr

/-- The fields of `MentorshipSession` (src/mentorship/models.py:244-296) that
the `complete`/`cancel` actions read or write. -/
structure Session where
  status : SessionStatus
  actual_start : Option Int
  actual_end : Option Int
deriving DecidableEq, Repr

/-- The fields of `MentorshipGoal` (src/mentorship/models.py:401-443) that
`update_progress` reads or writes. -/
structure Goal where
  status : GoalStatus
  progress_percentage : ℚ
  start_date : Option Int
  completion_date : Option Int
deriving DecidableEq, Repr

/-- `MentorshipSessionViewSet.complete` (src/mentorship/views.py:473-502).
`user` is the acting user, `now` the current time; returns the response and
the updated session and parent match.  The default-duration backfill
`actual_end - timedelta(hours=1)` is `now - 1` in our hour-valued time. -/
def completeSession (user : Nat) (now : Int) (s : Session) (m : MMatch) :
    Resp × Session × MMatch :=
  if m.mentor ≠ user ∧ m.mentee ≠ user then
    (.forbidden "Permission denied", s, m)
  else if s.status = .completed ∨ s.status = .cancelled then
    (.badRequest ("Session already " ++ s.status.display), s, m)
  else
    (.ok "Session marked as completed",
     { s with
        status := .completed
        actual_end := some now
        actual_start := match s.actual_start with
          | none => some (now - 1)
          | some t => some t },
     { m with meetings_held := m.meetings_held + 1 })

/-- The `progress_percentage` value found in the request body of
`update_progress`: absent, present but not coercible by `float(...)`, or a
number. -/
inductive ProgressPayload where
  | missing
  | nonNumeric
  | num (v : ℚ)
deriving DecidableEq, Repr

/-- `MentorshipGoalViewSet.update_progress` (src/mentorship/views.py:619-666).
`user` is the acting user, `today` the current date; returns the response
and the updated goal and parent match. -/
def update_progress (user : Nat) (today : Int) (g : Goal) (m : MMatch)
    (p : ProgressPayload) : Resp × Goal × MMatch :=
  if m.mentor ≠ user ∧ m.mentee ≠ user then
    (.forbidden "Permission denied", g, m)
  else
    match p with
    | .missing => (.badRequest "progress_percentage is required", g, m)
    | .nonNumeric =>
        (.badRequest "progress_percentage must be a number between 0 and 100",
         g, m)
    | .num v =>
        if ¬ (0 ≤ v ∧ v ≤ 100) then
          (.badRequest "progress_percentage must be a number between 0 and 100",
           g, m)
        else
          let g1 : Goal :=
            if v ≥ 100 then
              { g with
                  progress_percentage := v
                  status := .completed
                  completion_date := some today }
            else if v > 0 then
              { g with
                  progress_percentage := v
                  status := .in_progress
                  start_date := match g.start_date with
                    | none => some today
                    | some d => some d }
            else
              { g with progress_percentage := v }
          if g1.status = .completed then
            (.okData, g1,
             { m with milestones_completed := m.milestones_completed + 1 })
          else
            (.okData, g1, m)

/-- `MentorshipMatchViewSet.accept` (src/mentorship/views.py:325-350). -/
def acceptMatch (user : Nat) (now : Int) (m : MMatch) : Resp × MMatch :=
  if m.mentee ≠ user then
    (.forbidden "Only mentee can accept the match", m)
  else if m.status ≠ .proposed then
    (.badRequest ("Match is not in proposed status (current: "
       ++ m.status.display ++ ")"), m)
  else
    (.ok "Match accepted successfully",
     { m with status := .accepted, accepted_at := some now })

/-- `MentorshipMatchViewSet.start` (src/mentorship/views.py:375-397). -/
def startMatch (user : Nat) (now : Int) (m : MMatch) : Resp × MMatch :=
  if m.mentor ≠ user ∧ m.mentee ≠ user then
    (.forbidden "Only mentor or mentee can start the match", m)
  else if m.status ≠ .accepted then
    (.badRequest ("Match must be accepted before starting (current: "
       ++ m.status.display ++ ")"), m)
  else
    (.ok "Match started successfully",
     { m with status := .active, started_at := some now })

/-- The staff-only admin bulk action `propose_matches`
(src/mentorship/admin.py:235-238) restricted to a single match: it runs
`queryset.update(status='proposed', proposed_at=timezone.now())`
unconditionally. -/
def proposeMatch (now : Int) (m : MMatch) : MMatch :=
  { m with status := .proposed, proposed_at := some now }

/-- Modelled from the spec: the match `complete` transition.  The repository
declares it — `actions = [..., 'complete_matches']` in
src/mentorship/admin.py:233 and the `completed_at` field in
src/mentorship/models.py:212 — but the `complete_matches` method itself is
missing from the source.  Spec §4.3: `complete` (active→completed,
actor=staff|supervisor) records `completed_at`; per §4.1 a wrong source
status yields an invalid-transition error carrying the current status and a
failed authorization predicate yields a Forbidden error without mutation. -/
def completeMatch (isStaff : Bool) (now : Int) (m : MMatch) : Resp × MMatch :=
  if ¬ isStaff then
    (.forbidden "Permission denied", m)
  else if m.status ≠ .active then
    (.badRequest ("Match is not in active status (current: "
       ++ m.status.display ++ ")"), m)
  else
    (.ok "Match completed successfully",
     { m with status := .completed, completed_at := some now })

/-- `MentorshipApplication.ApplicationStatus`
(src/mentorship/models.py:120-127). -/
inductive AppStatus where
  | draft | submitted | under_review | shortlisted | accepted | rejected
  | withdrawn
deriving DecidableEq, Repr

/-- Display labels of `AppStatus` (`get_status_display`). -/
def AppStatus.display : AppStatus → String
  | .draft => "Draft"
  | .submitted => "Submitted"
  | .under_review => "Under Review"
  | .shortlisted => "Shortlisted"
  | .accepted => "Accepted"
  | .rejected => "Rejected"
  | .withdrawn => "Withdrawn"

/-- The fields of `MentorshipApplication` (src/mentorship/models.py:119-186)
that the `withdraw` action reads or writes. -/
structure MApplication where
  applicant : Nat
  status : AppStatus
deriving DecidableEq, Repr

/-- `MentorshipApplicationViewSet.withdraw`
(src/mentorship/views.py:284-305). -/
def withdrawApplication (user : Nat) (isStaff : Bool) (a : MApplication) :
    Resp × MApplication :=
  if a.applicant ≠ user ∧ ¬ isStaff then
    (.forbidden "Permission denied", a)
  else if a.status = .accepted ∨ a.status = .withdrawn then
    (.badRequest ("Cannot withdraw application in "
       ++ a.status.display ++ " status"), a)
  else
    (.ok "Application withdrawn successfully", { a with status := .withdrawn })

/-- The fields of `MentorshipProgram` (src/mentorship/models.py:9-117) that
the `apply` action reads or writes. -/
structure MProgram where
  application_start : Int
  application_deadline : Int
  applications_count : Nat
deriving DecidableEq, Repr

/-- `MentorshipProgram.is_accepting_applications`
(src/mentorship/models.py:113-116). -/
def MProgram.is_accepting_applications (p : MProgram) (today : Int) : Bool :=
  p.application_start ≤ today ∧ today ≤ p.application_deadline

/-- `MentorshipProgramViewSet.apply` (src/mentorship/views.py:107-161).
`authed` abstracts `user.is_authenticated`, `alreadyApplied` the duplicate
check, `isMentor` the mentor-membership check and `serializerValid`
`serializer.is_valid()`. -/
def applyMentorship (authed : Bool) (today : Int)
    (alreadyApplied isMentor serializerValid : Bool) (p : MProgram) :
    Resp × MProgram :=
  if ¬ authed then
    (.unauthorized "Authentication required", p)
  else if ¬ p.is_accepting_applications today then
    (.badRequest "Program is not currently accepting applications", p)
  else if alreadyApplied then
    (.badRequest "You have already applied to this program", p)
  else if isMentor then
    (.badRequest "You are already a mentor in this program", p)
  else if serializerValid then
    (.created, { p with applications_count := p.applications_count + 1 })
  else
    (.serializerErrors, p)

end Mentorship

namespace Volunteer

/-- `VolunteerApplication.ApplicationStatus`
(src/volunteer/models.py:154-163). -/
inductive VAppStatus where
  | draft | submitted | under_review | shortlisted | interviewing | accepted
  | rejected | withdrawn | on_hold
deriving DecidableEq, Repr

/-- Display labels of `VAppStatus` (`get_status_display`). -/
def VAppStatus.display : VAppStatus → String
  | .draft => "Draft"
  | .submitted => "Submitted"
  | .under_review => "Under Review"
  | .shortlisted => "Shortlisted"
  | .interviewing => "Interviewing"
  | .accepted => "Accepted"
  | .rejected => "Rejected"
  | .withdrawn => "Withdrawn"
  | .on_hold => "On Hold"

/-- The fields of `VolunteerApplication` (src/volunteer/models.py:153-249)
that the `withdraw` action reads or writes. -/
structure VApplication where
  applicant : Nat
  status : VAppStatus
deriving DecidableEq, Repr

/-- `VolunteerApplicationViewSet.withdraw`
(src/volunteer/views.py:344-365). -/
def withdrawVApplication (user : Nat) (isStaff : Bool) (a : VApplication) :
    Resp × VApplication :=
  if a.applicant ≠ user ∧ ¬ isStaff then
    (.forbidden "Permission denied", a)
  else if a.status = .accepted ∨ a.status = .withdrawn then
    (.badRequest ("Cannot withdraw application in "
       ++ a.status.display ++ " status"), a)
  else
    (.ok "Application withdrawn successfully", { a with status := .withdrawn })

/-- `VolunteerOpportunity.OpportunityStatus`
(src/volunteer/models.py:15-22). -/
inductive OppStatus where
  | draft | published | ongoing | filled | completed | cancelled | archived
deriving DecidableEq, Repr

/-- The fields of `VolunteerOpportunity` (src/volunteer/models.py:9-150)
that `apply`, `is_accepting_applications` and the assignment `complete`
action read or write. -/
structure Opportunity where
  is_published : Bool
  status : OppStatus
  application_deadline : Option Int
  positions_available : Nat
  positions_filled : Nat
  applications_count : Nat
deriving DecidableEq, Repr

/-- `VolunteerOpportunity.is_accepting_applications`
(src/volunteer/models.py:136-145).  The `if self.application_deadline and
...` test is skipped when the deadline is null. -/
def Opportunity.is_accepting_applications (o : Opportunity) (today : Int) :
    Bool :=
  if ¬ o.is_published ∨ o.status ≠ .published then false
  else if o.application_deadline.any (fun d => d < today) then false
  else if o.positions_filled ≥ o.positions_available then false
  else true

/-- `VolunteerAssignment.AssignmentStatus`
(src/volunteer/models.py:251-257). -/
inductive AssignStatus where
  | pending | active | on_leave | completed | terminated | extended
deriving DecidableEq, Repr

/-- Display labels of `AssignStatus` (`get_status_display`). -/
def AssignStatus.display : AssignStatus → String
  | .pending => "Pending Start"
  | .active => "Active"
  | .on_leave => "On Leave"
  | .completed => "Completed"
  | .terminated => "Terminated"
  | .extended => "Extended"

/-- Python's `int()` truncation toward zero, applied by Django's
`IntegerField.get_prep_value` when the float produced by the views'
arithmetic is saved into an integer column. -/
def pyInt (q : ℚ) : Int := q.num.tdiv (q.den : Int)

/-- The fields of `VolunteerAssignment` (src/volunteer/models.py:250-304)
that `log_time` and `complete` read or write; `applicant` stands for
`assignment.application.applicant`.  `hours_logged` is a
`PositiveIntegerField` (src/volunteer/models.py:276): the value each
request loads from the store is an integer, while the in-request float
arithmetic (modelled exactly on ℚ) is truncated by `int()` at each save,
so the field holds `Int`. -/
structure Assignment where
  applicant : Nat
  supervisor : Option Nat
  status : AssignStatus
  hours_logged : Int
  actual_end_date : Option Int
deriving DecidableEq, Repr

/-- `VolunteerTimeLog.LogStatus` (src/volunteer/models.py:307-311). -/
inductive LogStatus where
  | pending | approved | rejected | adjusted
deriving DecidableEq, Repr

/-- Display labels of `LogStatus` (`get_status_display`). -/
def LogStatus.display : LogStatus → String
  | .pending => "Pending Approval"
  | .approved => "Approved"
  | .rejected => "Rejected"
  | .adjusted => "Adjusted"

/-- The fields of `VolunteerTimeLog` (src/volunteer/models.py:306-352) that
`log_time`, `approve` and `reject` read or write. -/
structure TimeLog where
  volunteer : Nat
  total_hours : ℚ
  status : LogStatus
  approved_by : Option Nat
  approved_at : Option Int
  rejection_reason : String
deriving DecidableEq, Repr

/-- `VolunteerAssignmentViewSet.log_time` (src/volunteer/views.py:421-455).
`hours` is the `total_hours` of the submitted time log (a `FloatField`) and
`serializerValid` abstracts `serializer.is_valid()`; a new pending time log
is returned on success.  `assignment.hours_logged += time_log.total_hours`
computes on floats, then `assignment.save(...)` truncates the sum into the
integer column. -/
def log_time (user : Nat) (hours : ℚ) (serializerValid : Bool)
    (a : Assignment) : Resp × Assignment × Option TimeLog :=
  if a.applicant ≠ user then
    (.forbidden "Only the assigned volunteer can log time", a, none)
  else if a.status ≠ .active then
    (.badRequest ("Cannot log time for assignment in "
       ++ a.status.display ++ " status"), a, none)
  else if serializerValid then
    (.created,
     { a with hours_logged := pyInt ((a.hours_logged : ℚ) + hours) },
     some { volunteer := user, total_hours := hours, status := .pending,
            approved_by := none, approved_at := none, rejection_reason := "" })
  else
    (.serializerErrors, a, none)

/-- `VolunteerAssignmentViewSet.complete` (src/volunteer/views.py:457-487).
On success `positions_filled` is set to
`min(positions_filled + 1, positions_available)`. -/
def completeAssignment (user : Nat) (isStaff : Bool) (today : Int)
    (a : Assignment) (o : Opportunity) : Resp × Assignment × Opportunity :=
  if a.supervisor ≠ some user ∧ ¬ isStaff then
    (.forbidden "Permission denied", a, o)
  else if a.status ≠ .active then
    (.badRequest ("Cannot complete assignment in "
       ++ a.status.display ++ " status"), a, o)
  else
    (.ok "Assignment completed successfully",
     { a with status := .completed, actual_end_date := some today },
     { o with
        positions_filled := min (o.positions_filled + 1) o.positions_available })

/-- `VolunteerTimeLogViewSet.approve` (src/volunteer/views.py:507-530);
`a` is the time log's assignment. -/
def approveTimeLog (user : Nat) (isStaff : Bool) (now : Int)
    (t : TimeLog) (a : Assignment) : Resp × TimeLog × Assignment :=
  if a.supervisor ≠ some user ∧ ¬ isStaff then
    (.forbidden "Permission denied", t, a)
  else if t.status ≠ .pending then
    (.badRequest ("Time log is already " ++ t.status.display), t, a)
  else
    (.ok "Time log approved",
     { t with status := .approved, approved_by := some user,
              approved_at := some now },
     a)

/-- `VolunteerTimeLogViewSet.reject` (src/volunteer/views.py:532-567);
`a` is the time log's assignment, whose `hours_logged` is decremented by
the log's `total_hours` on success —
`time_log.assignment.hours_logged -= time_log.total_hours` on floats,
truncated into the integer column by the save. -/
def rejectTimeLog (user : Nat) (isStaff : Bool) (now : Int) (reason : String)
    (t : TimeLog) (a : Assignment) : Resp × TimeLog × Assignment :=
  if a.supervisor ≠ some user ∧ ¬ isStaff then
    (.forbidden "Permission denied", t, a)
  else if t.status ≠ .pending then
    (.badRequest ("Time log is already " ++ t.status.display), t, a)
  else if reason = "" then
    (.badRequest "Rejection reason is required", t, a)
  else
    (.ok "Time log rejected",
     { t with status := .rejected, approved_by := some user,
              approved_at := some now, rejection_reason := reason },
     { a with hours_logged := pyInt ((a.hours_logged : ℚ) - t.total_hours) })

/-- `VolunteerOpportunityViewSet.apply` (src/volunteer/views.py:91-154).
`authed` abstracts `user.is_authenticated`, `alreadyApplied` the duplicate
check, `ageError` the minimum/maximum-age rejection branches (carrying that
branch's error message when one fires) and `serializerValid`
`serializer.is_valid()`. -/
def applyVolunteer (authed : Bool) (today : Int) (alreadyApplied : Bool)
    (ageError : Option String) (serializerValid : Bool) (o : Opportunity) :
    Resp × Opportunity :=
  if ¬ authed then
    (.unauthorized "Authentication required", o)
  else if ¬ o.is_accepting_applications today then
    (.badRequest "Opportunity is not currently accepting applications", o)
  else if alreadyApplied then
    (.badRequest "You have already applied to this opportunity", o)
  else
    match ageError with
    | some msg => (.badRequest msg, o)
    | none =>
        if serializerValid then
          (.created, { o with applications_count := o.applications_count + 1 })
        else
          (.serializerErrors, o)

/-- One state change hitting a volunteer opportunity: an assignment
`complete` or an opportunity `apply`, with arbitrary actors and payloads. -/
inductive OppEvent where
  | completeAsg (user : Nat) (isStaff : Bool) (today : Int) (a : Assignment)
  | applyEvt (authed : Bool) (today : Int) (alreadyApplied : Bool)
      (ageError : Option String) (serializerValid : Bool)
deriving Repr

/-- The opportunity resulting from running one event. -/
def runOppEvent (o : Opportunity) : OppEvent → Opportunity
  | .completeAsg u st d a => (completeAssignment u st d a o).2.2
  | .applyEvt au d dup ageE v => (applyVolunteer au d dup ageE v o).2

/-- The opportunity resulting from running a sequence of events. -/
def runOppEvents (o : Opportunity) (es : List OppEvent) : Opportunity :=
  es.foldl runOppEvent o

end Volunteer

namespace Programs

/-- The fields of `Program` (src/programs/models.py) that the `apply`
action reads. -/
structure Program where
  application_deadline : Option Int
  applications_count : Nat
deriving DecidableEq, Repr

/-- `ProgramViewSet.apply` (src/programs/views.py:193-238).  The deadline
test `if program.application_deadline and program.application_deadline <
timezone.now().date()` is skipped on a null deadline.  The success branch
creates the application and sends a confirmation email but never updates
`applications_count`. -/
def applyProgram (today : Int) (alreadyApplied participant : Bool)
    (serializerValid : Bool) (p : Program) : Resp × Program :=
  if p.application_deadline.any (fun d => d < today) then
    (.badRequest "Application deadline has passed", p)
  else if alreadyApplied then
    (.badRequest "You have already applied to this program", p)
  else if participant then
    (.badRequest "You are already a participant in this program", p)
  else if serializerValid then
    (.created, p)
  else
    (.serializerErrors, p)

end Programs

end YES

namespace YES

namespace Mentorship

/-- C1: for a session whose status is not `completed` or `cancelled`,
`complete` called by the match's mentor or mentee succeeds, sets the
session status to `completed` and increments the parent match's
`meetings_held` by exactly 1; a second `complete` on the result is rejected
with a 400 whose message names the current (`completed`) status, and over
both calls `meetings_held` grows by exactly 1. -/
theorem session_complete_exactly_once (user : Nat) (t1 t2 : Int)
    (s : Session) (m : MMatch)
    (huser : user = m.mentor ∨ user = m.mentee)
    (hc : s.status ≠ .completed) (hx : s.status ≠ .cancelled) :
    (completeSession user t1 s m).1 = .ok "Session marked as completed" ∧
    (completeSession user t1 s m).2.1.status = .completed ∧
    (completeSession user t1 s m).2.2.meetings_held = m.meetings_held + 1 ∧
    (completeSession user t2 (completeSession user t1 s m).2.1
        (completeSession user t1 s m).2.2).1 =
      .badRequest ("Session already " ++ SessionStatus.display .completed) ∧
    (completeSession user t2 (completeSession user t1 s m).2.1
        (completeSession user t1 s m).2.2).2.2.meetings_held =
      m.meetings_held + 1 := by
  have hperm : ¬ (m.mentor ≠ user ∧ m.mentee ≠ user) := by
    rcases huser with h | h <;> simp [h]
  have hguard : ¬ (s.status = .completed ∨ s.status = .cancelled) := by
    simp [hc, hx]
  simp [completeSession, hperm, hguard, SessionStatus.display]

/-- Witness for C1 at a concrete scheduled session. -/
theorem session_complete_exactly_once_witness :
    ((1 : Nat) = (1 : Nat) ∨ (1 : Nat) = (2 : Nat)) ∧
    ((completeSession 1 10
        { status := .scheduled, actual_start := none, actual_end := none }
        { mentor := 1, mentee := 2, status := .active, proposed_at := none,
          accepted_at := none, started_at := none, completed_at := none,
          meetings_held := 0, milestones_completed := 0 }).1 =
      .ok "Session marked as completed" ∧
     (completeSession 1 10
        { status := .scheduled, actual_start := none, actual_end := none }
        { mentor := 1, mentee := 2, status := .active, proposed_at := none,
          accepted_at := none, started_at := none, completed_at := none,
          meetings_held := 0, milestones_completed := 0 }).2.1.status =
      .completed ∧
     (completeSession 1 10
        { status := .scheduled, actual_start := none, actual_end := none }
        { mentor := 1, mentee := 2, status := .active, proposed_at := none,
          accepted_at := none, started_at := none, completed_at := none,
          meetings_held := 0, milestones_completed := 0 }).2.2.meetings_held =
      0 + 1 ∧
     (completeSession 1 20
        (completeSession 1 10
          { status := .scheduled, actual_start := none, actual_end := none }
          { mentor := 1, mentee := 2, status := .active, proposed_at := none,
            accepted_at := none, started_at := none, completed_at := none,
            meetings_held := 0, milestones_completed := 0 }).2.1
        (completeSession 1 10
          { status := .scheduled, actual_start := none, actual_end := none }
          { mentor := 1, mentee := 2, status := .active, proposed_at := none,
            accepted_at := none, started_at := none, completed_at := none,
            meetings_held := 0, milestones_completed := 0 }).2.2).1 =
      .badRequest ("Session already " ++ SessionStatus.display .completed) ∧
     (completeSession 1 20
        (completeSession 1 10
          { status := .scheduled, actual_start := none, actual_end := none }
          { mentor := 1, mentee := 2, status := .active, proposed_at := none,
            accepted_at := none, started_at := none, completed_at := none,
            meetings_held := 0, milestones_completed := 0 }).2.1
        (completeSession 1 10
          { status := .scheduled, actual_start := none, actual_end := none }
          { mentor := 1, mentee := 2, status := .active, proposed_at := none,
            accepted_at := none, started_at := none, completed_at := none,
            meetings_held := 0, milestones_completed := 0 }).2.2).2.2.meetings_held =
      0 + 1) :=
  ⟨Or.inl rfl,
   session_complete_exactly_once 1 10 20
     { status := .scheduled, actual_start := none, actual_end := none }
     { mentor := 1, mentee := 2, status := .active, proposed_at := none,
       accepted_at := none, started_at := none, completed_at := none,
       meetings_held := 0, milestones_completed := 0 }
     (Or.inl rfl) (by decide) (by decide)⟩

/-- C2: the claim asks that setting progress to 100 twice increments the
parent match's `milestones_completed` exactly once in total.  The source has
no idempotency guard: after `goal.save()` it increments whenever the final
status is `completed`, so the second call increments again.  On a fresh goal
the two calls take `milestones_completed` from 0 to 1 and then to 2. -/
theorem goal_set_progress_100_twice_double_increments :
    (update_progress 1 5
        { status := .not_started, progress_percentage := 0,
          start_date := none, completion_date := none }
        { mentor := 1, mentee := 2, status := .active, proposed_at := none,
          accepted_at := none, started_at := none, completed_at := none,
          meetings_held := 0, milestones_completed := 0 }
        (.num 100)).2.2.milestones_completed = 1 ∧
    (update_progress 1 6
        (update_progress 1 5
          { status := .not_started, progress_percentage := 0,
            start_date := none, completion_date := none }
          { mentor := 1, mentee := 2, status := .active, proposed_at := none,
            accepted_at := none, started_at := none, completed_at := none,
            meetings_held := 0, milestones_completed := 0 }
          (.num 100)).2.1
        (update_progress 1 5
          { status := .not_started, progress_percentage := 0,
            start_date := none, completion_date := none }
          { mentor := 1, mentee := 2, status := .active, proposed_at := none,
            accepted_at := none, started_at := none, completed_at := none,
            meetings_held := 0, milestones_completed := 0 }
          (.num 100)).2.2
        (.num 100)).2.2.milestones_completed = 2 := by
  decide

/-- C7 counterexample: the claim says an accepted value `v = 0` always
yields status `not_started`.  In the source, `progress == 0` falls through
both status branches, so a goal already `in_progress` keeps status
`in_progress` after a successful `update_progress` call with value 0. -/
theorem goal_progress_zero_counterexample :
    (update_progress 1 5
        { status := .in_progress, progress_percentage := 50,
          start_date := some 1, completion_date := none }
        { mentor := 1, mentee := 2, status := .active, proposed_at := none,
          accepted_at := none, started_at := none, completed_at := none,
          meetings_held := 0, milestones_completed := 0 }
        (.num 0)).1 = .okData ∧
    (update_progress 1 5
        { status := .in_progress, progress_percentage := 50,
          start_date := some 1, completion_date := none }
        { mentor := 1, mentee := 2, status := .active, proposed_at := none,
          accepted_at := none, started_at := none, completed_at := none,
          meetings_held := 0, milestones_completed := 0 }
        (.num 0)).2.1.progress_percentage = 0 ∧
    (update_progress 1 5
        { status := .in_progress, progress_percentage := 50,
          start_date := some 1, completion_date := none }
        { mentor := 1, mentee := 2, status := .active, proposed_at := none,
          accepted_at := none, started_at := none, completed_at := none,
          meetings_held := 0, milestones_completed := 0 }
        (.num 0)).2.1.status ≠ .not_started := by
  decide

/-- Helper: with an authorized actor and an in-range value, `update_progress`
answers 200 with serializer data. -/
theorem update_progress_num_fst (user : Nat) (today : Int) (g : Goal)
    (m : MMatch) (v : ℚ)
    (hp : ¬ (m.mentor ≠ user ∧ m.mentee ≠ user)) (hr : 0 ≤ v ∧ v ≤ 100) :
    (update_progress user today g m (.num v)).1 = .okData := by
  simp only [update_progress, if_neg hp, if_neg (not_not_intro hr)]
  repeat' split
  all_goals rfl

/-- Helper: the goal produced by a successful `update_progress` call, as an
explicit case split on the value. -/
theorem update_progress_num_goal (user : Nat) (today : Int) (g : Goal)
    (m : MMatch) (v : ℚ)
    (hp : ¬ (m.mentor ≠ user ∧ m.mentee ≠ user)) (hr : 0 ≤ v ∧ v ≤ 100) :
    (update_progress user today g m (.num v)).2.1 =
      (if v ≥ 100 then
        { g with
            progress_percentage := v
            status := .completed
            completion_date := some today }
      else if v > 0 then
        { g with
            progress_percentage := v
            status := .in_progress
            start_date := match g.start_date with
              | none => some today
              | some d => some d }
      else
        { g with progress_percentage := v }) := by
  simp only [update_progress, if_neg hp, if_neg (not_not_intro hr)]
  repeat' split
  all_goals rfl

/-- C7 (amended): submitted progress values are rejected with a validation
error exactly when they are missing, non-numeric, or outside `[0, 100]`,
leaving goal and match unchanged.  An accepted value `v` sets
`progress_percentage` to `v` and derives the status: `v = 0` leaves the
status unchanged (so a goal still in its initial `not_started` state stays
`not_started`), `0 < v < 100` gives `in_progress` setting `start_date` if
unset, and `v = 100` gives `completed` setting `completion_date`. -/
theorem update_progress_spec_amended (user : Nat) (today : Int)
    (g : Goal) (m : MMatch)
    (huser : user = m.mentor ∨ user = m.mentee) :
    (update_progress user today g m .missing =
       (.badRequest "progress_percentage is required", g, m)) ∧
    (update_progress user today g m .nonNumeric =
       (.badRequest "progress_percentage must be a number between 0 and 100",
        g, m)) ∧
    (∀ v : ℚ, ¬ (0 ≤ v ∧ v ≤ 100) →
       update_progress user today g m (.num v) =
         (.badRequest "progress_percentage must be a number between 0 and 100",
          g, m)) ∧
    (∀ v : ℚ, 0 ≤ v → v ≤ 100 →
       (update_progress user today g m (.num v)).1 = .okData ∧
       (update_progress user today g m (.num v)).2.1.progress_percentage = v ∧
       (v = 0 → (update_progress user today g m (.num v)).2.1.status = g.status) ∧
       (0 < v → v < 100 →
          (update_progress user today g m (.num v)).2.1.status = .in_progress ∧
          (update_progress user today g m (.num v)).2.1.start_date =
            some (g.start_date.getD today)) ∧
       (v = 100 →
          (update_progress user today g m (.num v)).2.1.status = .completed ∧
          (update_progress user today g m (.num v)).2.1.completion_date =
            some today)) := by
  have hperm : ¬ (m.mentor ≠ user ∧ m.mentee ≠ user) := by
    rcases huser with h | h <;> simp [h]
  refine ⟨by simp [update_progress, hperm], by simp [update_progress, hperm],
    fun v hv => by simp [update_progress, hperm, hv], fun v h0 h100 => ?_⟩
  have hrange : (0 ≤ v ∧ v ≤ 100) := ⟨h0, h100⟩
  refine ⟨update_progress_num_fst user today g m v hperm hrange, ?_, ?_, ?_, ?_⟩
  · rw [update_progress_num_goal user today g m v hperm hrange]
    split_ifs <;> rfl
  · intro hv0
    subst hv0
    have hlt : ¬ ((0 : ℚ) ≥ 100) := by norm_num
    have hgt : ¬ ((0 : ℚ) > 0) := by norm_num
    rw [update_progress_num_goal user today g m 0 hperm hrange,
      if_neg hlt, if_neg hgt]
  · intro hpos hlt100
    have h1 : ¬ (v ≥ 100) := not_le.mpr hlt100
    rw [update_progress_num_goal user today g m v hperm hrange,
      if_neg h1, if_pos hpos]
    refine ⟨rfl, ?_⟩
    cases hsd : g.start_date <;> simp
  · intro hv
    subst hv
    have h1 : (100 : ℚ) ≥ 100 := le_refl _
    rw [update_progress_num_goal user today g m 100 hperm hrange, if_pos h1]
    exact ⟨rfl, rfl⟩

/-- Witness for the amended C7 theorem at a fresh goal and value 0. -/
theorem update_progress_spec_amended_witness :
    ((1 : Nat) = (1 : Nat) ∨ (1 : Nat) = (2 : Nat)) ∧
    ((0 : ℚ) ≤ 0 → (0 : ℚ) ≤ 100 →
      (update_progress 1 5
        { status := .not_started, progress_percentage := 0,
          start_date := none, completion_date := none }
        { mentor := 1, mentee := 2, status := .active, proposed_at := none,
          accepted_at := none, started_at := none, completed_at := none,
          meetings_held := 0, milestones_completed := 0 }
        (.num 0)).1 = .okData ∧
      (update_progress 1 5
        { status := .not_started, progress_percentage := 0,
          start_date := none, completion_date := none }
        { mentor := 1, mentee := 2, status := .active, proposed_at := none,
          accepted_at := none, started_at := none, completed_at := none,
          meetings_held := 0, milestones_completed := 0 }
        (.num 0)).2.1.progress_percentage = 0 ∧
      ((0 : ℚ) = 0 →
        (update_progress 1 5
          { status := .not_started, progress_percentage := 0,
            start_date := none, completion_date := none }
          { mentor := 1, mentee := 2, status := .active, proposed_at := none,
            accepted_at := none, started_at := none, completed_at := none,
            meetings_held := 0, milestones_completed := 0 }
          (.num 0)).2.1.status = GoalStatus.not_started) ∧
      ((0 : ℚ) < 0 → (0 : ℚ) < 100 →
        (update_progress 1 5
          { status := .not_started, progress_percentage := 0,
            start_date := none, completion_date := none }
          { mentor := 1, mentee := 2, status := .active, proposed_at := none,
            accepted_at := none, started_at := none, completed_at := none,
            meetings_held := 0, milestones_completed := 0 }
          (.num 0)).2.1.status = .in_progress ∧
        (update_progress 1 5
          { status := .not_started, progress_percentage := 0,
            start_date := none, completion_date := none }
          { mentor := 1, mentee := 2, status := .active, proposed_at := none,
            accepted_at := none, started_at := none, completed_at := none,
            meetings_held := 0, milestones_completed := 0 }
          (.num 0)).2.1.start_date =
          some ((none : Option Int).getD 5)) ∧
      ((0 : ℚ) = 100 →
        (update_progress 1 5
          { status := .not_started, progress_percentage := 0,
            start_date := none, completion_date := none }
          { mentor := 1, mentee := 2, status := .active, proposed_at := none,
            accepted_at := none, started_at := none, completed_at := none,
            meetings_held := 0, milestones_completed := 0 }
          (.num 0)).2.1.status = .completed ∧
        (update_progress 1 5
          { status := .not_started, progress_percentage := 0,
            start_date := none, completion_date := none }
          { mentor := 1, mentee := 2, status := .active, proposed_at := none,
            accepted_at := none, started_at := none, completed_at := none,
            meetings_held := 0, milestones_completed := 0 }
          (.num 0)).2.1.completion_date = some 5)) :=
  ⟨Or.inl rfl,
   fun h0 h100 =>
     (update_progress_spec_amended 1 5
       { status := .not_started, progress_percentage := 0,
         start_date := none, completion_date := none }
       { mentor := 1, mentee := 2, status := .active, proposed_at := none,
         accepted_at := none, started_at := none, completed_at := none,
         meetings_held := 0, milestones_completed := 0 }
       (Or.inl rfl)).2.2.2 0 h0 h100⟩

end Mentorship

end YES

namespace YES

namespace Mentorship

/-- C5: any user other than the match's mentee — in particular the mentor —
calling `accept` gets a 403 Forbidden and the match is returned unchanged
(status, `accepted_at` and every other field), regardless of the match's
current status. -/
theorem match_accept_by_non_mentee_forbidden (user : Nat) (now : Int)
    (m : MMatch) (h : user ≠ m.mentee) :
    acceptMatch user now m = (.forbidden "Only mentee can accept the match", m) := by
  simp [acceptMatch, Ne.symm h]

/-- Witness for C5: the mentor (user 1) calling `accept` on a proposed
match whose mentee is user 2. -/
theorem match_accept_by_non_mentee_forbidden_witness :
    (1 : Nat) ≠ 2 ∧
    acceptMatch 1 9
      { mentor := 1, mentee := 2, status := .proposed, proposed_at := some 0,
        accepted_at := none, started_at := none, completed_at := none,
        meetings_held := 0, milestones_completed := 0 } =
      (.forbidden "Only mentee can accept the match",
       { mentor := 1, mentee := 2, status := .proposed, proposed_at := some 0,
         accepted_at := none, started_at := none, completed_at := none,
         meetings_held := 0, milestones_completed := 0 }) :=
  ⟨by decide,
   match_accept_by_non_mentee_forbidden 1 9
     { mentor := 1, mentee := 2, status := .proposed, proposed_at := some 0,
       accepted_at := none, started_at := none, completed_at := none,
       meetings_held := 0, milestones_completed := 0 }
     (by decide)⟩

/-- C6: from a `pending` match, the sequence propose (staff admin action),
accept (mentee), start (mentee, one of the two parties), complete (staff;
the transition modelled from the spec, whose body is missing from the
source) ends in status `completed` with all four timestamps set to the
strictly increasing call times. -/
theorem match_roundtrip_completed (m : MMatch) (t1 t2 t3 t4 : Int)
    (hp : m.status = .pending) (h12 : t1 < t2) (h23 : t2 < t3)
    (h34 : t3 < t4) :
    (completeMatch true t4
        (startMatch m.mentee t3
          (acceptMatch m.mentee t2 (proposeMatch t1 m)).2).2).2.status =
      .completed ∧
    (completeMatch true t4
        (startMatch m.mentee t3
          (acceptMatch m.mentee t2 (proposeMatch t1 m)).2).2).2.proposed_at =
      some t1 ∧
    (completeMatch true t4
        (startMatch m.mentee t3
          (acceptMatch m.mentee t2 (proposeMatch t1 m)).2).2).2.accepted_at =
      some t2 ∧
    (completeMatch true t4
        (startMatch m.mentee t3
          (acceptMatch m.mentee t2 (proposeMatch t1 m)).2).2).2.started_at =
      some t3 ∧
    (completeMatch true t4
        (startMatch m.mentee t3
          (acceptMatch m.mentee t2 (proposeMatch t1 m)).2).2).2.completed_at =
      some t4 ∧
    t1 < t2 ∧ t2 < t3 ∧ t3 < t4 := by
  refine ⟨?_, ?_, ?_, ?_, ?_, h12, h23, h34⟩ <;>
    simp [proposeMatch, acceptMatch, startMatch, completeMatch]

/-- Witness for C6 at a concrete pending match and times 1 < 2 < 3 < 4. -/
theorem match_roundtrip_completed_witness :
    MatchStatus.pending = MatchStatus.pending ∧ (1 : Int) < 2 ∧
    (2 : Int) < 3 ∧ (3 : Int) < 4 ∧
    ((completeMatch true 4
        (startMatch 2 3
          (acceptMatch 2 2 (proposeMatch 1
            { mentor := 1, mentee := 2, status := .pending,
              proposed_at := none, accepted_at := none, started_at := none,
              completed_at := none, meetings_held := 0,
              milestones_completed := 0 })).2).2).2.status = .completed ∧
     (completeMatch true 4
        (startMatch 2 3
          (acceptMatch 2 2 (proposeMatch 1
            { mentor := 1, mentee := 2, status := .pending,
              proposed_at := none, accepted_at := none, started_at := none,
              completed_at := none, meetings_held := 0,
              milestones_completed := 0 })).2).2).2.proposed_at = some 1 ∧
     (completeMatch true 4
        (startMatch 2 3
          (acceptMatch 2 2 (proposeMatch 1
            { mentor := 1, mentee := 2, status := .pending,
              proposed_at := none, accepted_at := none, started_at := none,
              completed_at := none, meetings_held := 0,
              milestones_completed := 0 })).2).2).2.accepted_at = some 2 ∧
     (completeMatch true 4
        (startMatch 2 3
          (acceptMatch 2 2 (proposeMatch 1
            { mentor := 1, mentee := 2, status := .pending,
              proposed_at := none, accepted_at := none, started_at := none,
              completed_at := none, meetings_held := 0,
              milestones_completed := 0 })).2).2).2.started_at = some 3 ∧
     (completeMatch true 4
        (startMatch 2 3
          (acceptMatch 2 2 (proposeMatch 1
            { mentor := 1, mentee := 2, status := .pending,
              proposed_at := none, accepted_at := none, started_at := none,
              completed_at := none, meetings_held := 0,
              milestones_completed := 0 })).2).2).2.completed_at = some 4 ∧
     (1 : Int) < 2 ∧ (2 : Int) < 3 ∧ (3 : Int) < 4) :=
  ⟨rfl, by decide, by decide, by decide,
   match_roundtrip_completed
     { mentor := 1, mentee := 2, status := .pending, proposed_at := none,
       accepted_at := none, started_at := none, completed_at := none,
       meetings_held := 0, milestones_completed := 0 }
     1 2 3 4 rfl (by decide) (by decide) (by decide)⟩

end Mentorship

end YES

namespace YES

/-- C4: in both the mentorship and volunteer modules, `withdraw` by the
applicant succeeds on a `draft` application, setting status `withdrawn`;
on an `accepted` application it fails with a 400 whose message names the
current status via its display label "Accepted", and the application is
returned unchanged. -/
theorem withdraw_draft_ok_accepted_blocked (u : Nat) (st : Bool)
    (a : Mentorship.MApplication) (va : Volunteer.VApplication)
    (ha : a.applicant = u) (hva : va.applicant = u) :
    (a.status = .draft →
      Mentorship.withdrawApplication u st a =
        (.ok "Application withdrawn successfully",
         { a with status := .withdrawn })) ∧
    (a.status = .accepted →
      Mentorship.withdrawApplication u st a =
        (.badRequest ("Cannot withdraw application in "
           ++ Mentorship.AppStatus.display .accepted ++ " status"), a)) ∧
    (va.status = .draft →
      Volunteer.withdrawVApplication u st va =
        (.ok "Application withdrawn successfully",
         { va with status := .withdrawn })) ∧
    (va.status = .accepted →
      Volunteer.withdrawVApplication u st va =
        (.badRequest ("Cannot withdraw application in "
           ++ Volunteer.VAppStatus.display .accepted ++ " status"), va)) ∧
    Mentorship.AppStatus.display .accepted = "Accepted" ∧
    Volunteer.VAppStatus.display .accepted = "Accepted" := by
  refine ⟨fun h => ?_, fun h => ?_, fun h => ?_, fun h => ?_, rfl, rfl⟩ <;>
    simp [Mentorship.withdrawApplication, Volunteer.withdrawVApplication,
      ha, hva, h]

/-- Witness for C4: user 3's mentorship application in `draft` and
volunteer application in `accepted`. -/
theorem withdraw_draft_ok_accepted_blocked_witness :
    (3 : Nat) = 3 ∧
    ((Mentorship.MApplication.mk 3 .draft).status = .draft →
      Mentorship.withdrawApplication 3 false (Mentorship.MApplication.mk 3 .draft) =
        (.ok "Application withdrawn successfully",
         { Mentorship.MApplication.mk 3 .draft with status := .withdrawn })) ∧
    ((Mentorship.MApplication.mk 3 .draft).status = .accepted →
      Mentorship.withdrawApplication 3 false (Mentorship.MApplication.mk 3 .draft) =
        (.badRequest ("Cannot withdraw application in "
           ++ Mentorship.AppStatus.display .accepted ++ " status"),
         Mentorship.MApplication.mk 3 .draft)) ∧
    ((Volunteer.VApplication.mk 3 .accepted).status = .draft →
      Volunteer.withdrawVApplication 3 false (Volunteer.VApplication.mk 3 .accepted) =
        (.ok "Application withdrawn successfully",
         { Volunteer.VApplication.mk 3 .accepted with status := .withdrawn })) ∧
    ((Volunteer.VApplication.mk 3 .accepted).status = .accepted →
      Volunteer.withdrawVApplication 3 false (Volunteer.VApplication.mk 3 .accepted) =
        (.badRequest ("Cannot withdraw application in "
           ++ Volunteer.VAppStatus.display .accepted ++ " status"),
         Volunteer.VApplication.mk 3 .accepted)) ∧
    Mentorship.AppStatus.display .accepted = "Accepted" ∧
    Volunteer.VAppStatus.display .accepted = "Accepted" :=
  ⟨rfl,
   withdraw_draft_ok_accepted_blocked 3 false
     (Mentorship.MApplication.mk 3 .draft)
     (Volunteer.VApplication.mk 3 .accepted) rfl rfl⟩

/-- C9: in both modules the `withdraw` guard blocks only the statuses
`accepted` and `withdrawn`, so an application whose status is the terminal
`rejected` can still be withdrawn by the applicant or staff, ending in
status `withdrawn`. -/
theorem withdraw_rejected_ok (u : Nat) (st : Bool)
    (a : Mentorship.MApplication) (va : Volunteer.VApplication)
    (hpa : a.applicant = u ∨ st = true) (hpv : va.applicant = u ∨ st = true)
    (hs : a.status = .rejected) (hvs : va.status = .rejected) :
    Mentorship.withdrawApplication u st a =
      (.ok "Application withdrawn successfully",
       { a with status := .withdrawn }) ∧
    Volunteer.withdrawVApplication u st va =
      (.ok "Application withdrawn successfully",
       { va with status := .withdrawn }) := by
  constructor
  · rcases hpa with h | h <;>
      simp [Mentorship.withdrawApplication, h, hs]
  · rcases hpv with h | h <;>
      simp [Volunteer.withdrawVApplication, h, hvs]

/-- Witness for C9: user 4 withdrawing their rejected applications. -/
theorem withdraw_rejected_ok_witness :
    ((4 : Nat) = 4 ∨ false = true) ∧
    (Mentorship.withdrawApplication 4 false (Mentorship.MApplication.mk 4 .rejected) =
      (.ok "Application withdrawn successfully",
       { Mentorship.MApplication.mk 4 .rejected with status := .withdrawn }) ∧
     Volunteer.withdrawVApplication 4 false (Volunteer.VApplication.mk 4 .rejected) =
      (.ok "Application withdrawn successfully",
       { Volunteer.VApplication.mk 4 .rejected with status := .withdrawn })) :=
  ⟨Or.inl rfl,
   withdraw_rejected_ok 4 false
     (Mentorship.MApplication.mk 4 .rejected)
     (Volunteer.VApplication.mk 4 .rejected)
     (Or.inl rfl) (Or.inl rfl) rfl rfl⟩

end YES

namespace YES

namespace Volunteer

/-- Helper: a single opportunity event preserves `positions_filled ≤
positions_available`; the assignment `complete` success branch clamps the
increment with `min` and the `apply` action only touches
`applications_count`. -/
theorem runOppEvent_invariant (o : Opportunity) (e : OppEvent)
    (h : o.positions_filled ≤ o.positions_available) :
    (runOppEvent o e).positions_filled ≤
      (runOppEvent o e).positions_available := by
  cases e with
  | completeAsg u st d a =>
      simp only [runOppEvent, completeAssignment]
      repeat' split
      all_goals first | exact h | exact min_le_right _ _
  | applyEvt au d dup ageE v =>
      simp only [runOppEvent, applyVolunteer]
      repeat' split
      all_goals exact h

/-- C3: for every volunteer opportunity satisfying `positions_filled ≤
positions_available`, any sequence of application/assignment transitions
that touch the opportunity — `apply` calls and assignment `complete` calls
with arbitrary actors, payloads and assignments — keeps `positions_filled ≤
positions_available`. -/
theorem positions_filled_le_available (o : Opportunity)
    (es : List OppEvent)
    (h : o.positions_filled ≤ o.positions_available) :
    (runOppEvents o es).positions_filled ≤
      (runOppEvents o es).positions_available := by
  induction es generalizing o with
  | nil => exact h
  | cons e es ih => exact ih _ (runOppEvent_invariant o e h)

/-- Witness for C3: a published opportunity with one slot and two successive
assignment completions by its staff supervisor. -/
theorem positions_filled_le_available_witness :
    (0 : Nat) ≤ 1 ∧
    (runOppEvents
        { is_published := true, status := .published,
          application_deadline := none, positions_available := 1,
          positions_filled := 0, applications_count := 0 }
        [.completeAsg 7 true 3
            { applicant := 5, supervisor := some 7, status := .active,
              hours_logged := 0, actual_end_date := none },
         .completeAsg 7 true 4
            { applicant := 6, supervisor := some 7, status := .active,
              hours_logged := 0, actual_end_date := none }]).positions_filled ≤
      (runOppEvents
        { is_published := true, status := .published,
          application_deadline := none, positions_available := 1,
          positions_filled := 0, applications_count := 0 }
        [.completeAsg 7 true 3
            { applicant := 5, supervisor := some 7, status := .active,
              hours_logged := 0, actual_end_date := none },
         .completeAsg 7 true 4
            { applicant := 6, supervisor := some 7, status := .active,
              hours_logged := 0, actual_end_date := none }]).positions_available :=
  ⟨by decide,
   positions_filled_le_available
     { is_published := true, status := .published,
       application_deadline := none, positions_available := 1,
       positions_filled := 0, applications_count := 0 }
     [.completeAsg 7 true 3
         { applicant := 5, supervisor := some 7, status := .active,
           hours_logged := 0, actual_end_date := none },
      .completeAsg 7 true 4
         { applicant := 6, supervisor := some 7, status := .active,
           hours_logged := 0, actual_end_date := none }]
     (by decide)⟩

/-- Helper: Python's `int()` is the identity on integer-valued floats. -/
theorem pyInt_intCast (n : Int) : pyInt (n : ℚ) = n := by
  have hnum : ((n : ℚ)).num = n := rfl
  have hden : (((n : ℚ)).den : Int) = 1 := rfl
  rw [pyInt, hnum, hden]
  cases n with
  | ofNat m => simp [Int.tdiv]
  | negSucc m => simp [Int.tdiv, Int.negSucc_eq]

/-- C10 counterexample: the claim says rejecting a logged time entry
restores `hours_logged` to its pre-log value for every logged amount.
`hours_logged` is an integer column while `total_hours` is a float, and
each save truncates with `int()`: logging 2.5 hours on an assignment
holding 3 stores `int(3 + 2.5) = 5`, and the subsequent reject stores
`int(5 - 2.5) = 2`, not the original 3 (and the log step raised the value
by 2, not 2.5). -/
theorem log_time_reject_truncation_counterexample :
    (log_time 5 (5 / 2 : ℚ) true
        { applicant := 5, supervisor := some 7, status := .active,
          hours_logged := 3, actual_end_date := none }).2.1.hours_logged = 5 ∧
    (log_time 5 (5 / 2 : ℚ) true
        { applicant := 5, supervisor := some 7, status := .active,
          hours_logged := 3, actual_end_date := none }).2.2 =
      some { volunteer := 5, total_hours := (5 / 2 : ℚ), status := .pending,
             approved_by := none, approved_at := none,
             rejection_reason := "" } ∧
    (rejectTimeLog 7 false 9 "too vague"
        { volunteer := 5, total_hours := (5 / 2 : ℚ), status := .pending,
          approved_by := none, approved_at := none, rejection_reason := "" }
        (log_time 5 (5 / 2 : ℚ) true
          { applicant := 5, supervisor := some 7, status := .active,
            hours_logged := 3, actual_end_date := none }).2.1).2.2.hours_logged =
      2 ∧
    (2 : Int) ≠ 3 := by
  have h1 : pyInt ((3 : ℚ) + 5 / 2) = 5 := by
    norm_num [pyInt]
    decide
  have h2 : pyInt ((5 : ℚ) - 5 / 2) = 2 := by
    norm_num [pyInt]
    decide
  have hr : ("too vague" : String) ≠ "" := by decide
  refine ⟨?_, ?_, ?_, by decide⟩
  · simp [log_time, h1]
  · simp [log_time]
  · simp [log_time, rejectTimeLog, h1, h2, hr]

/-- C10 (amended): on an active assignment, `log_time` for a whole number
of hours `hrs` creates a pending time log and raises `hours_logged` by
exactly `hrs`; rejecting that pending log with a non-empty reason (by the
supervisor or staff) subtracts `hrs` again, restoring the pre-log value,
while approving it leaves `hours_logged` at the post-log value.  For
fractional `total_hours` the integer column truncates each save, so the
exact round-trip holds only for whole-number amounts. -/
theorem log_time_reject_restores_integer_hours (u sup : Nat)
    (isStaff : Bool) (now : Int) (hrs : Int) (reason : String)
    (a : Assignment)
    (hu : a.applicant = u) (hactive : a.status = .active)
    (hsup : a.supervisor = some sup) (hreason : reason ≠ "") :
    (log_time u (hrs : ℚ) true a).1 = .created ∧
    (log_time u (hrs : ℚ) true a).2.1.hours_logged =
      a.hours_logged + hrs ∧
    (log_time u (hrs : ℚ) true a).2.2 =
      some { volunteer := u, total_hours := (hrs : ℚ), status := .pending,
             approved_by := none, approved_at := none,
             rejection_reason := "" } ∧
    (rejectTimeLog sup isStaff now reason
        { volunteer := u, total_hours := (hrs : ℚ), status := .pending,
          approved_by := none, approved_at := none, rejection_reason := "" }
        (log_time u (hrs : ℚ) true a).2.1).2.2.hours_logged =
      a.hours_logged ∧
    (approveTimeLog sup isStaff now
        { volunteer := u, total_hours := (hrs : ℚ), status := .pending,
          approved_by := none, approved_at := none, rejection_reason := "" }
        (log_time u (hrs : ℚ) true a).2.1).2.2.hours_logged =
      a.hours_logged + hrs := by
  have hadd : pyInt ((a.hours_logged : ℚ) + (hrs : ℚ)) =
      a.hours_logged + hrs := by
    rw [← Int.cast_add, pyInt_intCast]
  have hlog : log_time u (hrs : ℚ) true a =
      (.created, { a with hours_logged := a.hours_logged + hrs },
       some { volunteer := u, total_hours := (hrs : ℚ), status := .pending,
              approved_by := none, approved_at := none,
              rejection_reason := "" }) := by
    simp [log_time, hu, hactive, hadd]
  have hsub : pyInt (((a.hours_logged + hrs : Int) : ℚ) - (hrs : ℚ)) =
      a.hours_logged := by
    rw [← Int.cast_sub, pyInt_intCast, add_sub_cancel_right]
  refine ⟨by rw [hlog], by rw [hlog], by rw [hlog], ?_, ?_⟩
  · rw [hlog]
    simp [rejectTimeLog, hsup, hreason, hsub, pyInt_intCast]
  · rw [hlog]
    simp [approveTimeLog, hsup]

/-- Witness for the amended C10: volunteer 5 logs 2 whole hours on their
active assignment holding 3, supervised by user 7, who then rejects the
log with a reason. -/
theorem log_time_reject_restores_integer_hours_witness :
    (5 : Nat) = 5 ∧
    ((log_time 5 ((2 : Int) : ℚ) true
        { applicant := 5, supervisor := some 7, status := .active,
          hours_logged := 3, actual_end_date := none }).1 = .created ∧
     (log_time 5 ((2 : Int) : ℚ) true
        { applicant := 5, supervisor := some 7, status := .active,
          hours_logged := 3, actual_end_date := none }).2.1.hours_logged =
       3 + 2 ∧
     (log_time 5 ((2 : Int) : ℚ) true
        { applicant := 5, supervisor := some 7, status := .active,
          hours_logged := 3, actual_end_date := none }).2.2 =
       some { volunteer := 5, total_hours := ((2 : Int) : ℚ),
              status := .pending, approved_by := none, approved_at := none,
              rejection_reason := "" } ∧
     (rejectTimeLog 7 false 9 "too vague"
        { volunteer := 5, total_hours := ((2 : Int) : ℚ),
          status := .pending, approved_by := none, approved_at := none,
          rejection_reason := "" }
        (log_time 5 ((2 : Int) : ℚ) true
          { applicant := 5, supervisor := some 7, status := .active,
            hours_logged := 3, actual_end_date := none }).2.1).2.2.hours_logged =
       3 ∧
     (approveTimeLog 7 false 9
        { volunteer := 5, total_hours := ((2 : Int) : ℚ),
          status := .pending, approved_by := none, approved_at := none,
          rejection_reason := "" }
        (log_time 5 ((2 : Int) : ℚ) true
          { applicant := 5, supervisor := some 7, status := .active,
            hours_logged := 3, actual_end_date := none }).2.1).2.2.hours_logged =
       3 + 2) :=
  ⟨rfl,
   log_time_reject_restores_integer_hours 5 7 false 9 2 "too vague"
     { applicant := 5, supervisor := some 7, status := .active,
       hours_logged := 3, actual_end_date := none }
     rfl rfl rfl (by decide)⟩

end Volunteer

end YES

namespace YES

/-- C8 counterexample: the claim asserts that every successful `apply`
increments the parent aggregate's `applications_count` in all three
modules.  In the programs module a successful `apply` (open deadline, no
duplicate, not a participant, valid payload) creates the application and
returns 201 yet leaves `applications_count` at 0. -/
theorem program_apply_count_unchanged_counterexample :
    (Programs.applyProgram 5 false false true
        { application_deadline := some 10, applications_count := 0 }).1 =
      .created ∧
    (Programs.applyProgram 5 false false true
        { application_deadline := some 10,
          applications_count := 0 }).2.applications_count = 0 := by
  decide

/-- C8 (amended): in the mentorship and volunteer modules a successful
`apply` (response 201) increments the aggregate's `applications_count` by
exactly 1, and any failed `apply` leaves the aggregate unchanged (and
creates no application).  In the programs module `apply` never changes the
program row: `applications_count` is unchanged even on success. -/
theorem apply_applications_count_amended (authed : Bool) (today : Int)
    (dup ment valid : Bool) (p : Mentorship.MProgram)
    (authed2 : Bool) (today2 : Int) (dup2 : Bool) (ageE : Option String)
    (valid2 : Bool) (o : Volunteer.Opportunity)
    (today3 : Int) (dup3 part3 valid3 : Bool) (q : Programs.Program) :
    ((Mentorship.applyMentorship authed today dup ment valid p).1 = .created →
      (Mentorship.applyMentorship authed today dup ment valid
          p).2.applications_count = p.applications_count + 1) ∧
    ((Mentorship.applyMentorship authed today dup ment valid p).1 ≠ .created →
      (Mentorship.applyMentorship authed today dup ment valid p).2 = p) ∧
    ((Volunteer.applyVolunteer authed2 today2 dup2 ageE valid2 o).1 =
        .created →
      (Volunteer.applyVolunteer authed2 today2 dup2 ageE valid2
          o).2.applications_count = o.applications_count + 1) ∧
    ((Volunteer.applyVolunteer authed2 today2 dup2 ageE valid2 o).1 ≠
        .created →
      (Volunteer.applyVolunteer authed2 today2 dup2 ageE valid2 o).2 = o) ∧
    (Programs.applyProgram today3 dup3 part3 valid3 q).2 = q := by
  refine ⟨?_, ?_, ?_, ?_, ?_⟩
  · intro hc
    unfold Mentorship.applyMentorship at hc ⊢
    split_ifs at hc ⊢ <;> simp_all
  · intro hc
    unfold Mentorship.applyMentorship at hc ⊢
    split_ifs at hc ⊢ <;> simp_all
  · intro hc
    cases ageE with
    | some msg =>
        unfold Volunteer.applyVolunteer at hc ⊢
        split_ifs at hc ⊢ <;> simp_all
    | none =>
        unfold Volunteer.applyVolunteer at hc ⊢
        split_ifs at hc ⊢ <;> simp_all
  · intro hc
    cases ageE with
    | some msg =>
        unfold Volunteer.applyVolunteer at hc ⊢
        split_ifs at hc ⊢ <;> simp_all
    | none =>
        unfold Volunteer.applyVolunteer at hc ⊢
        split_ifs at hc ⊢ <;> simp_all
  · unfold Programs.applyProgram
    split_ifs <;> rfl

/-- Witness for the amended C8 theorem: a successful mentorship `apply`
inside the application window takes `applications_count` from 3 to 4. -/
theorem apply_applications_count_amended_witness :
    (Mentorship.applyMentorship true 5 false false true
        { application_start := 0, application_deadline := 10,
          applications_count := 3 }).2.applications_count = 3 + 1 :=
  (apply_applications_count_amended true 5 false false true
      { application_start := 0, application_deadline := 10,
        applications_count := 3 }
      true 5 false none true
      { is_published := true, status := .published,
        application_deadline := none, positions_available := 1,
        positions_filled := 0, applications_count := 0 }
      5 false false true
      { application_deadline := none, applications_count := 0 }).1
    (by decide)

end YES
